import Mathlib

/-
  Verification development for the sre-rca-agent repository.

  The investigation engine itself (Python: core/orchestrator.py, core/models.py,
  core/scoring.py, the workflow graph) is not part of the sources available
  here; only its documentation (DATAMODEL.md, README.md, OUTLINE.md) and the
  TypeScript frontend/UI that consume its output are.  Definitions in the
  `Engine` namespace are therefore modelled from the specification text and
  the in-repository documentation; definitions in the `Frontend`, `UI` and
  `Tabs` namespaces are direct shallow embeddings of the TypeScript source
  files under src/frontend and src/ui.
-/

set_option maxHeartbeats 1000000

namespace SreRca

/-! ## Engine core, modelled from the spec -/

namespace Engine

/-- Modelled from the spec: canonical evidence kinds of the data model
(DATAMODEL.md, spec section 3): alert, log, metric, deployment, change, trace,
event, build, service_graph, runbook, other.  The Python `core/models.py`
holding this enum is not under src. -/
inductive EvidenceKind where
  | alert
  | log
  | metric
  | deployment
  | change
  | trace
  | event
  | build
  | service_graph
  | runbook
  | other
deriving DecidableEq

/-- Modelled from the spec: the normalized evidence representation produced by
the Evidence Normalizer (spec sections 3 and 4.3); the Python `core/models.py`
EvidenceItem is not under src.  RFC3339 timestamps are embedded as integer
epoch values; opaque payloads are embedded as strings. -/
structure EvidenceItem where
  id : String
  kind : EvidenceKind
  source : String
  time_start : Int
  time_end : Int
  query : String
  summary : String
  samples : List String
  top_signals : List (String × Nat)
  pointers : List String
  tags : List String
deriving DecidableEq

/-- Modelled from the spec: a hypothesis candidate coming back from the
external reasoning boundary (spec sections 3 and 4.4); the Python engine code
is not under src. -/
structure HypothesisCandidate where
  statement : String
  supporting_evidence_ids : List String
  contradictions : List String
  validations : List String
deriving DecidableEq

/-- Modelled from the spec: a known failure mode of a KB subject record
(spec sections 3 and 6). -/
structure KBFailureMode where
  name : String
  indicators : List String
deriving DecidableEq

/-- Modelled from the spec: the read-only KB slice handed to generation and
scoring (spec sections 3, 4.5 and 6); the Python `core/kb.py` is not under
src. -/
structure KBSlice where
  subject : String
  environment : String
  known_failure_modes : List KBFailureMode
  dependencies : List String
  runbooks : List String
deriving DecidableEq

/-- Modelled from the spec: the vendor-neutral incident input (spec sections 3
and 6); the Python `core/models.py` IncidentInput is not under src. -/
structure IncidentInput where
  title : String
  severity : String
  environment : String
  subject : String
  time_start : Int
  time_end : Int
deriving DecidableEq

/-- Modelled from the spec: environment canonicalization performed by
`core/orchestrator.normalize_incident` (not under src; documented in
DATAMODEL.md): production and prd normalize to prod, stage and stg to staging,
development to dev; canonical values pass through; anything else is rejected
(a ValueError in the engine, `none` here) before an investigation starts. -/
def normalizeEnvironment (env : String) : Option String :=
  if env = "prod" ∨ env = "production" ∨ env = "prd" then some "prod"
  else if env = "staging" ∨ env = "stage" ∨ env = "stg" then some "staging"
  else if env = "dev" ∨ env = "development" then some "dev"
  else none

/-- The environment spellings accepted at ingest: canonical values and their
aliases. -/
def recognizedEnvironments : List String :=
  ["prod", "production", "prd", "staging", "stage", "stg", "dev", "development"]

/-- Modelled from the spec: the named numeric components of a score plus the
derived total in the unit interval (spec section 3, ScoreBreakdown); the
Python `core/scoring.py` is not under src.  Numbers are embedded as
rationals. -/
structure ScoreBreakdown where
  coverage : Rat
  temporal_alignment : Rat
  kb_match : Rat
  deploy_signal : Rat
  specificity : Rat
  contradiction_penalty : Rat
  total : Rat
deriving DecidableEq, Inhabited

/-- Modelled from the spec: the external reasoning service behind the
Hypothesis Candidate Generator boundary (spec section 4.4).  It receives only
the incident, the KB slice and the normalized evidence set, and returns
candidate hypotheses.  The workflow holds a reference to it; the Deterministic
Scorer is handed the same reference so that independence from it can be
stated. -/
abbrev ReasoningService : Type :=
  IncidentInput → KBSlice → List EvidenceItem → List HypothesisCandidate

/-- The evidence items of the evidence set cited by a candidate through its
supporting evidence ids. -/
def citedEvidence (candidate : HypothesisCandidate)
    (evidence_set : List EvidenceItem) : List EvidenceItem :=
  evidence_set.filter (fun e => candidate.supporting_evidence_ids.contains e.id)

/-- Modelled from the spec: coverage component, 0 to 3: count of distinct
evidence kinds referenced among supporting ids, capped (spec section 4.5). -/
def coverageScore (cited : List EvidenceItem) : Rat :=
  let distinct : Nat := (cited.map (fun e => e.kind)).dedup.length
  let capped : Nat := if distinct ≤ 3 then distinct else 3
  (capped : Rat)

/-- Modelled from the spec: temporal alignment component, 0 to 3: the fraction
of cited evidence whose timestamp falls on or after the detected onset of the
incident, scaled to the range (spec section 4.5). -/
def temporalAlignmentScore (incident : IncidentInput)
    (cited : List EvidenceItem) : Rat :=
  if cited.length = 0 then 0
  else
    mkRat (3 * ((cited.filter (fun e => decide (incident.time_start ≤ e.time_start))).length : Int))
      cited.length

/-- Modelled from the spec: KB match component, 0 or 2: whether tags or signal
signatures of cited evidence intersect the indicators of the known failure
modes of the subject (spec section 4.5). -/
def kbMatchScore (kb_slice : KBSlice) (cited : List EvidenceItem) : Rat :=
  if cited.any (fun e =>
      kb_slice.known_failure_modes.any (fun m =>
        m.indicators.any (fun ind =>
          e.tags.contains ind || (e.top_signals.map Prod.fst).contains ind)))
  then 2 else 0

/-- Modelled from the spec: the short window, in embedded time units, within
which a deployment or change preceding the onset earns the deploy-signal
boost; exposed as a named documented constant (spec sections 4.5 and 9). -/
def deploySignalWindow : Int := 1800

/-- Modelled from the spec: deploy signal component, 0 or 4/5: boost if a
deployment, change or build evidence item precedes the incident onset within
a short window (spec section 4.5). -/
def deploySignalScore (incident : IncidentInput) (cited : List EvidenceItem) : Rat :=
  if cited.any (fun e =>
      (e.kind == EvidenceKind.deployment || e.kind == EvidenceKind.change
        || e.kind == EvidenceKind.build)
      && decide (e.time_start ≤ incident.time_start)
      && decide (incident.time_start - e.time_start ≤ deploySignalWindow))
  then mkRat 4 5 else 0

/-- Modelled from the spec: specificity component, 0 or 2: a pure
string-presence check, not an LLM judgment: the statement of the candidate
names a concrete error signature, that is one of its words is a tag of a
cited evidence item (spec section 4.5). -/
def specificityScore (candidate : HypothesisCandidate)
    (cited : List EvidenceItem) : Rat :=
  let words := candidate.statement.splitOn " "
  if cited.any (fun e => e.tags.any (fun t => words.contains t)) then 2 else 0

/-- Modelled from the spec: contradiction penalty, 0 down to minus 3: one unit
subtracted per unresolved contradiction note, floored (spec section 4.5). -/
def contradictionPenaltyScore (candidate : HypothesisCandidate) : Rat :=
  let units : Nat := candidate.contradictions.length
  let capped : Nat := if units ≤ 3 then units else 3
  Neg.neg ((capped : Rat))

/-- The reciprocal of the largest raw rubric sum 3 + 3 + 2 + 4/5 + 2 = 54/5;
multiplying by it normalizes the raw linear combination. -/
def scoreNormalizer : Rat := mkRat 5 54

/-- Clamp a rational to the unit interval. -/
def clamp01 (x : Rat) : Rat :=
  if x < 0 then 0 else if 1 < x then 1 else x

/-- Modelled from the spec: the Deterministic Scorer (spec section 4.5),
`score(candidate, evidence_set, kb_slice, incident) -> ScoreBreakdown`.  The
Python `core/scoring.py` is not under src.  The ambient reasoning service in
scope in the workflow is passed in so that the requirement that the scorer
never consult it can be stated; the body makes no use of it.  The total is a
fixed linear combination normalized to the unit interval by a clamp. -/
def score (svc : ReasoningService) (candidate : HypothesisCandidate)
    (evidence_set : List EvidenceItem) (kb_slice : KBSlice)
    (incident : IncidentInput) : ScoreBreakdown :=
  let cited := citedEvidence candidate evidence_set
  let cov := coverageScore cited
  let ta := temporalAlignmentScore incident cited
  let kbm := kbMatchScore kb_slice cited
  let dep := deploySignalScore incident cited
  let spec := specificityScore candidate cited
  let pen := contradictionPenaltyScore candidate
  { coverage := cov
    temporal_alignment := ta
    kb_match := kbm
    deploy_signal := dep
    specificity := spec
    contradiction_penalty := pen
    total := clamp01 ((cov + ta + kbm + dep + spec + pen) * scoreNormalizer) }

/-- Modelled from the spec: a scored hypothesis: candidate plus breakdown plus
final confidence equal to the total (spec section 3). -/
structure Hypothesis where
  id : String
  statement : String
  confidence : Rat
  score_breakdown : ScoreBreakdown
  supporting_evidence_ids : List String
  contradictions : List String
  validations : List String
deriving DecidableEq, Inhabited

/-- Modelled from the spec: citation validation at the reasoning boundary
(spec sections 4.4 and 7): a candidate is valid exactly when every id it
cites is the id of some evidence item of the evidence set; invalid candidates
are dropped, never silently kept. -/
def validCandidate (evidence_set : List EvidenceItem)
    (c : HypothesisCandidate) : Bool :=
  c.supporting_evidence_ids.all (fun cid => evidence_set.any (fun e => e.id == cid))

/-- Build the scored hypothesis for a validated candidate at a given
generation index. -/
def mkHypothesis (svc : ReasoningService) (evidence_set : List EvidenceItem)
    (kb_slice : KBSlice) (incident : IncidentInput) (idx : Nat)
    (c : HypothesisCandidate) : Hypothesis :=
  let breakdown := score svc c evidence_set kb_slice incident
  { id := "h-" ++ toString idx
    statement := c.statement
    confidence := breakdown.total
    score_breakdown := breakdown
    supporting_evidence_ids := c.supporting_evidence_ids
    contradictions := c.contradictions
    validations := c.validations }

/-- Score a list of already-validated candidates, assigning ids in stable
generation order. -/
def scoreValidatedAux (svc : ReasoningService) (evidence_set : List EvidenceItem)
    (kb_slice : KBSlice) (incident : IncidentInput) :
    Nat → List HypothesisCandidate → List Hypothesis
  | _, [] => []
  | idx, c :: cs =>
      mkHypothesis svc evidence_set kb_slice incident idx c ::
        scoreValidatedAux svc evidence_set kb_slice incident (idx + 1) cs

/-- Modelled from the spec: one generation-and-scoring pass (spec sections 4.4
and 4.5): consult the external reasoning service on the normalized evidence
set and KB slice, drop every candidate citing an unknown evidence id, and
score the remaining candidates deterministically. -/
def generateAndScore (svc : ReasoningService) (evidence_set : List EvidenceItem)
    (kb_slice : KBSlice) (incident : IncidentInput) : List Hypothesis :=
  scoreValidatedAux svc evidence_set kb_slice incident 0
    ((svc incident kb_slice evidence_set).filter (validCandidate evidence_set))

/-- Modelled from the spec: the deterministic ranking order (spec section
4.5): higher total first, ties broken by higher coverage, then higher
specificity, then earliest generation order. -/
def beats (a b : Hypothesis) : Bool :=
  decide (b.confidence < a.confidence)
  || (decide (a.confidence = b.confidence)
      && (decide (b.score_breakdown.coverage < a.score_breakdown.coverage)
          || (decide (a.score_breakdown.coverage = b.score_breakdown.coverage)
              && decide (b.score_breakdown.specificity < a.score_breakdown.specificity))))

/-- Stable insertion according to `beats`: an element is placed after exactly
the already-ranked elements that strictly beat it. -/
def insertRanked (h : Hypothesis) : List Hypothesis → List Hypothesis
  | [] => [h]
  | x :: xs => if beats x h then x :: insertRanked h xs else h :: x :: xs

/-- Stable ranking of the scored hypothesis list. -/
def rankHypotheses (hs : List Hypothesis) : List Hypothesis :=
  hs.foldr insertRanked []

/-- Modelled from the spec: the minimum confidence floor separating
`other_hypotheses` from fallback hypotheses (spec section 4.7), exposed as a
named documented constant. -/
def minConfidenceFloor : Rat := mkRat 3 10

/-- Modelled from the spec: the bound on how many fallback hypotheses a
report retains (spec section 4.7). -/
def fallbackLimit : Nat := 3

/-- Modelled from the spec: the terminal report artifact (spec sections 3 and
6); the Python `core/models.py` RCAReport is not under src.  The aggregated
what-changed and impact-scope summaries are embedded as lists of strings. -/
structure RCAReport where
  incident_summary : String
  time_start : Int
  time_end : Int
  top_hypothesis : Hypothesis
  other_hypotheses : List Hypothesis
  fallback_hypotheses : List Hypothesis
  evidence : List EvidenceItem
  what_changed : List String
  impact_scope : List String
  next_validations : List String
deriving DecidableEq, Inhabited

/-- Modelled from the spec: the what-changed summary groups deployment, build
and change evidence (spec section 4.7). -/
def whatChanged (evidence : List EvidenceItem) : List String :=
  (evidence.filter (fun e =>
      e.kind == EvidenceKind.deployment || e.kind == EvidenceKind.change
        || e.kind == EvidenceKind.build)).map (fun e => e.summary)

/-- Modelled from the spec: the impact scope aggregates tags such as error
signatures across the evidence set (spec section 4.7). -/
def impactScope (evidence : List EvidenceItem) : List String :=
  (evidence.map (fun e => e.tags)).flatten.dedup

/-- Modelled from the spec: the Report Assembler (spec section 4.7): the
highest-ranked hypothesis becomes the top hypothesis, the following ones at
or above the minimum confidence floor become the other hypotheses, the
below-floor remainder becomes the bounded fallback list; next validations are
the deduplicated proposed validations of the top hypothesis. -/
def assembleReport (incident : IncidentInput) (evidence : List EvidenceItem)
    (scored : List Hypothesis) : Option RCAReport :=
  match rankHypotheses scored with
  | [] => none
  | top :: rest =>
      some { incident_summary := top.statement
             time_start := incident.time_start
             time_end := incident.time_end
             top_hypothesis := top
             other_hypotheses := rest.filter (fun h => decide (minConfidenceFloor ≤ h.confidence))
             fallback_hypotheses :=
               (rest.filter (fun h => decide (h.confidence < minConfidenceFloor))).take fallbackLimit
             evidence := evidence
             what_changed := whatChanged evidence
             impact_scope := impactScope evidence
             next_validations := top.validations.dedup }

/-- Modelled from the spec: one full produce-report pass: generate candidates
at the reasoning boundary, validate citations, score, rank and assemble (spec
sections 2, 4.4, 4.5 and 4.7). -/
def produceReport (svc : ReasoningService) (incident : IncidentInput)
    (kb_slice : KBSlice) (evidence : List EvidenceItem) : Option RCAReport :=
  assembleReport incident evidence (generateAndScore svc evidence kb_slice incident)

/-- A JSON-like value, used to embed the serialized report output of the
engine (spec section 6). -/
inductive JsonValue where
  | str (value : String)
  | num (value : Rat)
  | arr (items : List JsonValue)
  | obj (fields : List (String × JsonValue))

/-- The serialized name of an evidence kind. -/
def EvidenceKind.label : EvidenceKind → String
  | .alert => "alert"
  | .log => "log"
  | .metric => "metric"
  | .deployment => "deployment"
  | .change => "change"
  | .trace => "trace"
  | .event => "event"
  | .build => "build"
  | .service_graph => "service_graph"
  | .runbook => "runbook"
  | .other => "other"

/-- Modelled from the spec: the serialization of one evidence item in the
RCAReport JSON output (spec section 6): each evidence item carries id, kind,
source, time_range, query, summary, samples, top_signals, pointers and
tags. -/
def EvidenceItem.jsonFields (e : EvidenceItem) : List (String × JsonValue) :=
  [("id", JsonValue.str e.id),
   ("kind", JsonValue.str e.kind.label),
   ("source", JsonValue.str e.source),
   ("time_range", JsonValue.obj
      [("start", JsonValue.num (e.time_start : Rat)), ("end", JsonValue.num (e.time_end : Rat))]),
   ("query", JsonValue.str e.query),
   ("summary", JsonValue.str e.summary),
   ("samples", JsonValue.arr (e.samples.map JsonValue.str)),
   ("top_signals", JsonValue.obj (e.top_signals.map (fun p => (p.1, JsonValue.num (p.2 : Rat))))),
   ("pointers", JsonValue.arr (e.pointers.map JsonValue.str)),
   ("tags", JsonValue.arr (e.tags.map JsonValue.str))]

/-- The field names every serialized evidence item must carry (spec section
6). -/
def requiredEvidenceFields : List String :=
  ["id", "kind", "source", "time_range", "query", "summary", "samples",
   "top_signals", "pointers", "tags"]

/-- Modelled from the spec: the states of the Iteration Controller (spec
section 4.6). -/
inductive ControllerState where
  | Collecting (targeted : Bool)
  | Generating
  | Scoring
  | Decide
  | Done
  | Exhausted
deriving DecidableEq

/-- Modelled from the spec: the configuration of the Iteration Controller
(spec section 4.6): the iteration bound and the confidence threshold. -/
structure ControllerConfig where
  max_iterations : Nat
  threshold : Rat
deriving DecidableEq

/-- Modelled from the spec: the transition taken at the Decide state after a
given number of completed collection passes (spec section 4.6): stop with
Done once the best confidence reaches the threshold, stop with Exhausted once
the iteration counter has reached the bound, otherwise go back to a targeted
collection pass. -/
def decideTransition (cfg : ControllerConfig) (passesDone : Nat)
    (bestConfidence : Rat) : ControllerState :=
  if cfg.threshold ≤ bestConfidence then ControllerState.Done
  else if cfg.max_iterations ≤ passesDone then ControllerState.Exhausted
  else ControllerState.Collecting true

/-- The iteration loop of the controller: each round performs one collection,
generation and scoring pass and then takes the Decide transition;
`bestConfidence n` is the best confidence available after the n-th pass.
Returns the terminal state together with the number of collection passes
performed.  The fuel equals the iteration bound, which the Decide transition
never exceeds. -/
def runControllerGo (cfg : ControllerConfig) (bestConfidence : Nat → Rat) :
    Nat → Nat → ControllerState × Nat
  | 0, passes => (ControllerState.Exhausted, passes)
  | fuel + 1, passes =>
      let p := passes + 1
      match decideTransition cfg p (bestConfidence p) with
      | ControllerState.Collecting _ => runControllerGo cfg bestConfidence fuel p
      | s => (s, p)

/-- Modelled from the spec: run the bounded iteration controller from the
start of an investigation (spec section 4.6). -/
def runController (cfg : ControllerConfig) (bestConfidence : Nat → Rat) :
    ControllerState × Nat :=
  runControllerGo cfg bestConfidence cfg.max_iterations 0

/-- The outcome handed to the caller when the controller halts: a report,
possibly with an explicit caveat, or an error. -/
inductive ControllerOutcome where
  | success (report : RCAReport) (caveat : Bool)
  | failure (message : String)
deriving DecidableEq

/-- Modelled from the spec: Done and Exhausted are both terminal and both
produce a report; Exhausted is not an error, it is a report with an explicit
caveat (spec section 4.6). -/
def finishInvestigation : ControllerState → RCAReport → ControllerOutcome
  | ControllerState.Done, r => ControllerOutcome.success r false
  | ControllerState.Exhausted, r => ControllerOutcome.success r true
  | _, _ => ControllerOutcome.failure "investigation halted in a non-terminal state"

end Engine

/-! ## Frontend components, embedded from src/frontend -/

namespace Frontend

/-- The Hypothesis interface of src/frontend/lib/api.ts, lines 26 to 35: id,
statement and confidence are required; evidence ids, validations, score
breakdown, supporting evidence ids and contradictions are optional.  JS
numbers are embedded as rationals, optional fields as options, and the score
breakdown record as an association list. -/
structure Hypothesis where
  id : String
  statement : String
  confidence : Rat
  evidence_ids : Option (List String)
  validations : Option (List String)
  score_breakdown : Option (List (String × Rat))
  supporting_evidence_ids : Option (List String)
  contradictions : Option (List String)
deriving DecidableEq, Inhabited

/-- Embedding of the stable descending sort
`[...hypotheses].sort((a, b) => b.confidence - a.confidence)` performed by
HypothesesList in src/frontend/components/incident/hypothesis-card.tsx,
lines 131 to 153: an element is inserted after exactly the elements of
strictly higher confidence, so equal confidences keep their original
order, as the ECMAScript stable sort does. -/
def insertByConfidenceDesc (h : Hypothesis) : List Hypothesis → List Hypothesis
  | [] => [h]
  | x :: xs =>
      if h.confidence < x.confidence then x :: insertByConfidenceDesc h xs
      else h :: x :: xs

/-- The sorted copy of the hypothesis list built by HypothesesList. -/
def hypothesesListSorted (hypotheses : List Hypothesis) : List Hypothesis :=
  hypotheses.foldr insertByConfidenceDesc []

/-- HypothesesList: `const top = sorted[0]` — the hypothesis rendered as the
top hypothesis, when the list is non-empty. -/
def hypothesesListTop (hypotheses : List Hypothesis) : Option Hypothesis :=
  (hypothesesListSorted hypotheses).head?

/-- HypothesesList: `const others = sorted.slice(1)` — the hypotheses rendered
in the Other Hypotheses card. -/
def hypothesesListOthers (hypotheses : List Hypothesis) : List Hypothesis :=
  (hypothesesListSorted hypotheses).tail

end Frontend

/-! ## UI routes and api, embedded from src/ui -/

namespace UI

/-- BindingResolution of src/ui/src/lib/api.ts, lines 274 to 281; the
nullable category and type are embedded as options. -/
structure BindingResolution where
  capability : String
  provider_id : String
  resolved : Bool
  provider_category : Option String
  provider_type : Option String
deriving DecidableEq

/-- bindingStatus of src/ui/src/routes/onboarding/+page.svelte, lines 174 to
178: an unresolved item reports Unresolved Provider, a resolved item whose
provider category differs from the requested capability reports Category
Mismatch, anything else reports OK. -/
def bindingStatus (item : BindingResolution) : String :=
  if item.resolved = false then "Unresolved Provider"
  else if item.provider_category ≠ some item.capability then "Category Mismatch"
  else "OK"

/-- OnboardingProviderModel of src/ui/src/lib/api.ts, lines 241 to 247; the
opaque config record is embedded as an association list of opaque strings. -/
structure OnboardingProviderModel where
  id : String
  category : String
  type : String
  operations : List String
  config : List (String × String)
deriving DecidableEq, Inhabited

/-- OnboardingFailureModeModel of src/ui/src/lib/api.ts, lines 249 to 252. -/
structure OnboardingFailureModeModel where
  name : String
  indicators : List String
deriving DecidableEq

/-- OnboardingSubjectModel of src/ui/src/lib/api.ts, lines 254 to 265; the
bindings record from capability to provider id and the opaque context records
are embedded as association lists. -/
structure OnboardingSubjectModel where
  name : String
  environment : String
  aliases : List String
  bindings : List (String × String)
  dependencies : List String
  runbooks : List String
  known_failure_modes : List OnboardingFailureModeModel
  deploy_context : List (String × String)
  vcs_context : List (String × String)
  log_evidence : List (String × String)
deriving DecidableEq, Inhabited

/-- OnboardingModel of src/ui/src/lib/api.ts, lines 267 to 270. -/
structure OnboardingModel where
  providers : List OnboardingProviderModel
  subjects : List OnboardingSubjectModel
deriving DecidableEq

/-- The per-subject part of removeProvider: the copied bindings record with
every entry whose bound provider id equals the removed id deleted. -/
def removeProviderBindings (providerId : Option String)
    (subject : OnboardingSubjectModel) : OnboardingSubjectModel :=
  { subject with
      bindings := subject.bindings.filter (fun b => decide (some b.2 ≠ providerId)) }

/-- removeProvider of src/ui/src/routes/onboarding/+page.svelte, lines 209 to
225: reads the id of the provider at the index, drops that provider from the
provider list, and deletes from every subject each binding bound to that id;
the provider-config drafts it also resets are view-local state outside the
model. -/
def removeProvider (model : OnboardingModel) (index : Nat) : OnboardingModel :=
  let providerId := (model.providers[index]?).map (fun p => p.id)
  { providers := model.providers.eraseIdx index
    subjects := model.subjects.map (removeProviderBindings providerId) }

/-- The hypothesis shape inside RCAReportResponse of src/ui/src/lib/api.ts,
lines 48 to 61. -/
structure ReportHypothesis where
  id : String
  statement : String
  confidence : Rat
  supporting_evidence_ids : List String
  validations : List String
deriving DecidableEq

/-- A time range of the report response, RFC3339 strings. -/
structure ReportTimeRange where
  start : String
  stop : String
deriving DecidableEq

/-- The evidence shape inside RCAReportResponse of src/ui/src/lib/api.ts,
lines 41 to 47. -/
structure ReportEvidence where
  id : String
  kind : String
  source : String
  time_range : ReportTimeRange
  summary : String
deriving DecidableEq

/-- The report field of RCAReportResponse of src/ui/src/lib/api.ts, lines 39
to 63; every field is optional there. -/
structure ReportBody where
  time_range : Option ReportTimeRange
  evidence : Option (List ReportEvidence)
  top_hypothesis : Option ReportHypothesis
  other_hypotheses : Option (List ReportHypothesis)
  next_validations : Option (List String)
deriving DecidableEq

/-- The workflow step labels of the incident page, src/unnamed/part_002,
line 25. -/
def steps : List String :=
  ["Idle", "Collecting Evidence", "Hypothesizing", "Recommendation Ready"]

/-- currentStepIndex of the incident page, src/unnamed/part_002, lines 52 to
60: 0 without a report, 3 when the report has a top hypothesis, 2 when it
has evidence but no top hypothesis, 1 otherwise.  The absent-or-null report
of the response is embedded as `none`. -/
def currentStepIndex (report : Option ReportBody) : Nat :=
  match report with
  | none => 0
  | some r =>
      let evidence := r.evidence.getD []
      let hasEvidence := decide (evidence.length > 0)
      let hasHypothesis := r.top_hypothesis.isSome
      if hasHypothesis then 3
      else if hasEvidence then 2
      else 1

end UI

/-! ## Incident-tabs store, embedded from src/ui/src/lib/stores/incident-tabs -/

namespace Tabs

/-- IncidentTab of the incident-tabs store. -/
structure IncidentTab where
  id : String
  title : String
  severity : String
  environment : String
  subject : String
deriving DecidableEq

/-- IncidentTabsState of the incident-tabs store. -/
structure IncidentTabsState where
  openTabs : List IncidentTab
  activeTabId : Option String
deriving DecidableEq

/-- MAX_TABS of the incident-tabs store. -/
def MAX_TABS : Nat := 5

/-- loadState of the incident-tabs store: a missing, unparseable or malformed
persisted value (embedded as `none`) yields the empty state; otherwise the
persisted open tabs are truncated to MAX_TABS and the persisted active id is
kept. -/
def loadState (persisted : Option IncidentTabsState) : IncidentTabsState :=
  match persisted with
  | none => { openTabs := [], activeTabId := none }
  | some parsed =>
      { openTabs := parsed.openTabs.take MAX_TABS, activeTabId := parsed.activeTabId }

/-- openTab of the incident-tabs store: any tab with the same id is removed,
the tab is placed first, the list is truncated to MAX_TABS when it exceeds
the bound, and the tab becomes active. -/
def openTab (tab : IncidentTab) (state : IncidentTabsState) : IncidentTabsState :=
  let nextTabs0 := state.openTabs.filter (fun t => decide (t.id ≠ tab.id))
  let nextTabs1 := tab :: nextTabs0
  let nextTabs := if nextTabs1.length > MAX_TABS then nextTabs1.take MAX_TABS else nextTabs1
  { openTabs := nextTabs, activeTabId := some tab.id }

/-- closeTab of the incident-tabs store: the tab with the id is removed; when
it was active, the first remaining tab (or nothing) becomes active. -/
def closeTab (id : String) (state : IncidentTabsState) : IncidentTabsState :=
  let nextTabs := state.openTabs.filter (fun t => decide (t.id ≠ id))
  let nextActive :=
    if state.activeTabId = some id then (nextTabs.head?).map (fun t => t.id)
    else state.activeTabId
  { openTabs := nextTabs, activeTabId := nextActive }

/-- setActive of the incident-tabs store. -/
def setActive (id : String) (state : IncidentTabsState) : IncidentTabsState :=
  { state with activeTabId := some id }

/-- syncFromRoute of the incident-tabs store: an empty id (falsy in JS) or an
id not among the open tabs leaves the state unchanged; otherwise the id
becomes active. -/
def syncFromRoute (id : String) (state : IncidentTabsState) : IncidentTabsState :=
  if id = "" then state
  else if state.openTabs.any (fun t => decide (t.id = id)) then
    { state with activeTabId := some id }
  else state

/-- reset of the incident-tabs store. -/
def reset : IncidentTabsState :=
  { openTabs := [], activeTabId := none }

/-- The store invariant: at most MAX_TABS open tabs, with pairwise-distinct
ids. -/
def TabsInvariant (state : IncidentTabsState) : Prop :=
  state.openTabs.length ≤ MAX_TABS ∧ (state.openTabs.map (fun t => t.id)).Nodup

end Tabs

/-! ## Concrete inputs used by the witnesses -/

/-- A concrete log evidence item. -/
def wLogEvidence : Engine.EvidenceItem :=
  { id := "e1"
    kind := Engine.EvidenceKind.log
    source := "loki-prod"
    time_start := 122
    time_end := 130
    query := "payments-api error signatures"
    summary := "error spike NullPointerException in payments-api"
    samples := ["NullPointerException at PaymentService"]
    top_signals := [("NullPointerException", 12)]
    pointers := ["loki payments-api errors"]
    tags := ["NullPointerException"] }

/-- A concrete deployment evidence item preceding the incident onset. -/
def wDeployEvidence : Engine.EvidenceItem :=
  { id := "e2"
    kind := Engine.EvidenceKind.deployment
    source := "argo-prod"
    time_start := 110
    time_end := 111
    query := "payments-api deployments"
    summary := "payments-api rollout v42"
    samples := ["rollout v42"]
    top_signals := []
    pointers := ["argo payments-api history"]
    tags := ["v42"] }

/-- The concrete evidence set of the witnesses. -/
def wEvidenceSet : List Engine.EvidenceItem := [wLogEvidence, wDeployEvidence]

/-- A concrete candidate citing both evidence items. -/
def wCandidate : Engine.HypothesisCandidate :=
  { statement := "rollout v42 introduced NullPointerException failures"
    supporting_evidence_ids := ["e1", "e2"]
    contradictions := []
    validations := ["roll back v42", "watch error rate"] }

/-- A concrete incident. -/
def wIncident : Engine.IncidentInput :=
  { title := "payment latency spike"
    severity := "critical"
    environment := "prod"
    subject := "payments-api"
    time_start := 120
    time_end := 180 }

/-- A concrete KB slice with one known failure mode. -/
def wKBSlice : Engine.KBSlice :=
  { subject := "payments-api"
    environment := "prod"
    known_failure_modes := [{ name := "npe-regression", indicators := ["NullPointerException"] }]
    dependencies := ["postgres"]
    runbooks := ["rbk-payments-latency"] }

/-- A concrete reasoning service returning the single candidate. -/
def wService : Engine.ReasoningService := fun _ _ _ => [wCandidate]

/-- A second concrete reasoning service, with different behavior, used to
exercise independence of the scorer from the service. -/
def wServiceAlt : Engine.ReasoningService := fun _ _ _ => []

/-- The concrete report produced on the witness inputs. -/
def wReport : Engine.RCAReport :=
  (Engine.produceReport wService wIncident wKBSlice wEvidenceSet).getD default

/-- Two frontend hypotheses with equal confidence, exhibiting the strictness
tie. -/
def tieFirst : Frontend.Hypothesis :=
  { id := "h-1"
    statement := "first hypothesis"
    confidence := mkRat 1 2
    evidence_ids := none
    validations := none
    score_breakdown := none
    supporting_evidence_ids := none
    contradictions := none }

/-- The second tied frontend hypothesis. -/
def tieSecond : Frontend.Hypothesis :=
  { tieFirst with id := "h-2", statement := "second hypothesis" }

/-- A concrete open tab. -/
def wTab : Tabs.IncidentTab :=
  { id := "inc-1", title := "payment latency spike", severity := "P1",
    environment := "prod", subject := "payments-api" }

/-- A second concrete open tab. -/
def wTab2 : Tabs.IncidentTab :=
  { id := "inc-2", title := "checkout errors", severity := "P2",
    environment := "staging", subject := "checkout" }

/-- A concrete tabs state satisfying the invariant. -/
def wTabsState : Tabs.IncidentTabsState :=
  { openTabs := [wTab2], activeTabId := some "inc-2" }

/-- A concrete onboarding provider. -/
def wProvider : UI.OnboardingProviderModel :=
  { id := "loki-prod", category := "log_store", type := "loki",
    operations := ["query.signature_counts"], config := [("url", "loki.internal")] }

/-- A second concrete onboarding provider. -/
def wProviderAlt : UI.OnboardingProviderModel :=
  { id := "argo-prod", category := "deploy_tracker", type := "argo",
    operations := ["list_deployments"], config := [] }

/-- A concrete onboarding subject bound to both providers. -/
def wSubject : UI.OnboardingSubjectModel :=
  { name := "payments-api", environment := "prod", aliases := ["payments"],
    bindings := [("log_store", "loki-prod"), ("deploy_tracker", "argo-prod")],
    dependencies := ["postgres"], runbooks := ["rbk-payments-latency"],
    known_failure_modes := [{ name := "npe-regression", indicators := ["NullPointerException"] }],
    deploy_context := [], vcs_context := [], log_evidence := [] }

/-- A concrete onboarding model. -/
def wOnboardingModel : UI.OnboardingModel :=
  { providers := [wProvider, wProviderAlt], subjects := [wSubject] }

end SreRca

/-! ## Theorems -/

namespace SreRca

/-- Claim C6: at ingest, production and prd normalize to prod, stage and stg
to staging, development to dev, and any environment value that is neither a
canonical value nor one of these aliases is rejected (no canonical value is
produced) before an investigation starts. -/
theorem environment_canonicalization :
    Engine.normalizeEnvironment "production" = some "prod" ∧
    Engine.normalizeEnvironment "prd" = some "prod" ∧
    Engine.normalizeEnvironment "stage" = some "staging" ∧
    Engine.normalizeEnvironment "stg" = some "staging" ∧
    Engine.normalizeEnvironment "development" = some "dev" ∧
    Engine.normalizeEnvironment "prod" = some "prod" ∧
    Engine.normalizeEnvironment "staging" = some "staging" ∧
    Engine.normalizeEnvironment "dev" = some "dev" ∧
    ∀ env : String,
      Engine.normalizeEnvironment env = none ↔ env ∉ Engine.recognizedEnvironments := by
  refine ⟨by decide, by decide, by decide, by decide, by decide, by decide, by decide, by decide, ?_⟩
  intro env
  unfold Engine.normalizeEnvironment Engine.recognizedEnvironments
  by_cases h1 : env = "prod" ∨ env = "production" ∨ env = "prd"
  · simp only [h1, if_true]
    rcases h1 with h | h | h <;> subst h <;> decide
  · by_cases h2 : env = "staging" ∨ env = "stage" ∨ env = "stg"
    · simp only [h1, h2, if_false, if_true]
      rcases h2 with h | h | h <;> subst h <;> decide
    · by_cases h3 : env = "dev" ∨ env = "development"
      · simp only [h1, h2, h3, if_false, if_true]
        rcases h3 with h | h <;> subst h <;> decide
      · simp only [h1, h2, h3, if_false]
        push_neg at h1 h2 h3
        simp [List.mem_cons, h1.1, h1.2.1, h1.2.2, h2.1, h2.2.1, h2.2.2, h3.1, h3.2]

/-- Claim C2: the Scorer is deterministic — two invocations on identical
candidate, evidence set, KB slice and incident inputs return identical
ScoreBreakdown values and identical confidence (the total) — and its result
never depends on the external reasoning service it could reach, so it never
consults it. -/
theorem scorer_deterministic (svc1 svc2 : Engine.ReasoningService)
    (c1 c2 : Engine.HypothesisCandidate)
    (ev1 ev2 : List Engine.EvidenceItem)
    (kb1 kb2 : Engine.KBSlice) (inc1 inc2 : Engine.IncidentInput)
    (hc : c1 = c2) (he : ev1 = ev2) (hk : kb1 = kb2) (hi : inc1 = inc2) :
    Engine.score svc1 c1 ev1 kb1 inc1 = Engine.score svc2 c2 ev2 kb2 inc2 ∧
    (Engine.score svc1 c1 ev1 kb1 inc1).total = (Engine.score svc2 c2 ev2 kb2 inc2).total := by
  subst hc; subst he; subst hk; subst hi
  exact ⟨rfl, rfl⟩

/-- Witness for C2 at concrete inputs, with two observably different
reasoning services. -/
theorem scorer_deterministic_witness :
    Engine.score wService wCandidate wEvidenceSet wKBSlice wIncident =
      Engine.score wServiceAlt wCandidate wEvidenceSet wKBSlice wIncident ∧
    (Engine.score wService wCandidate wEvidenceSet wKBSlice wIncident).total =
      (Engine.score wServiceAlt wCandidate wEvidenceSet wKBSlice wIncident).total :=
  scorer_deterministic wService wServiceAlt wCandidate wCandidate wEvidenceSet wEvidenceSet
    wKBSlice wKBSlice wIncident wIncident rfl rfl rfl rfl

/-- Claim C5: every evidence item of a produced RCA report is serialized with
all of the fields id, kind, source, time_range, query, summary, samples,
top_signals, pointers and tags. -/
theorem report_evidence_fields (svc : Engine.ReasoningService)
    (incident : Engine.IncidentInput) (kb_slice : Engine.KBSlice)
    (evidence : List Engine.EvidenceItem) (report : Engine.RCAReport)
    (hrep : Engine.produceReport svc incident kb_slice evidence = some report)
    (e : Engine.EvidenceItem) (he : e ∈ report.evidence)
    (f : String) (hf : f ∈ Engine.requiredEvidenceFields) :
    f ∈ (Engine.EvidenceItem.jsonFields e).map Prod.fst := by
  have hfields : (Engine.EvidenceItem.jsonFields e).map Prod.fst = Engine.requiredEvidenceFields := by
    simp [Engine.EvidenceItem.jsonFields, Engine.requiredEvidenceFields]
  rw [hfields]
  exact hf

/-- Witness for C5 at the concrete witness report: the query field is carried
by its first evidence item. -/
theorem report_evidence_fields_witness :
    "query" ∈ (Engine.EvidenceItem.jsonFields wLogEvidence).map Prod.fst :=
  report_evidence_fields wService wIncident wKBSlice wEvidenceSet wReport rfl
    wLogEvidence (by decide) "query" (by decide)

/-- Claim C7: with an iteration bound of 2 and a best confidence that never
reaches the threshold, the controller terminates in the Exhausted state after
exactly 2 collection passes, and the Exhausted terminal state still hands the
caller a report rather than an error. -/
theorem iteration_bound_exhausted (threshold : Rat) (bestConfidence : Nat → Rat)
    (r : Engine.RCAReport) (hbelow : ∀ n, bestConfidence n < threshold) :
    Engine.runController ⟨2, threshold⟩ bestConfidence = (Engine.ControllerState.Exhausted, 2) ∧
    Engine.finishInvestigation (Engine.runController ⟨2, threshold⟩ bestConfidence).fst r =
      Engine.ControllerOutcome.success r true := by
  have h1 : ¬ (threshold ≤ bestConfidence 1) := not_le.mpr (hbelow 1)
  have h2 : ¬ (threshold ≤ bestConfidence 2) := not_le.mpr (hbelow 2)
  have hrun : Engine.runController ⟨2, threshold⟩ bestConfidence =
      (Engine.ControllerState.Exhausted, 2) := by
    simp [Engine.runController, Engine.runControllerGo, Engine.decideTransition, h1, h2]
  refine ⟨hrun, ?_⟩
  rw [hrun]
  rfl

/-- Witness for C7: a confidence stuck at zero against a threshold of one. -/
theorem iteration_bound_exhausted_witness :
    Engine.runController ⟨2, 1⟩ (fun _ => 0) = (Engine.ControllerState.Exhausted, 2) ∧
    Engine.finishInvestigation (Engine.runController ⟨2, 1⟩ (fun _ => 0)).fst wReport =
      Engine.ControllerOutcome.success wReport true :=
  iteration_bound_exhausted 1 (fun _ => 0) wReport (fun _ => by change (0 : Rat) < 1; decide)

/-- Membership in a ranked insertion is membership in the inserted element or
the list. -/
theorem mem_insertRanked (x h : Engine.Hypothesis) :
    ∀ l : List Engine.Hypothesis, x ∈ Engine.insertRanked h l ↔ x = h ∨ x ∈ l
  | [] => by simp [Engine.insertRanked]
  | y :: ys => by
      unfold Engine.insertRanked
      by_cases hb : Engine.beats y h = true
      · rw [if_pos hb]
        rw [List.mem_cons, mem_insertRanked x h ys, List.mem_cons]
        tauto
      · rw [if_neg hb]
        simp [List.mem_cons]

/-- Ranking a hypothesis list preserves its members. -/
theorem mem_rankHypotheses (x : Engine.Hypothesis) :
    ∀ l : List Engine.Hypothesis, x ∈ Engine.rankHypotheses l ↔ x ∈ l
  | [] => by simp [Engine.rankHypotheses]
  | y :: ys => by
      show x ∈ Engine.insertRanked y (Engine.rankHypotheses ys) ↔ x ∈ y :: ys
      rw [mem_insertRanked, mem_rankHypotheses x ys, List.mem_cons]

/-- Every hypothesis scored out of a candidate list keeps the supporting
evidence ids of one of the candidates. -/
theorem mem_scoreValidatedAux (svc : Engine.ReasoningService)
    (evidence_set : List Engine.EvidenceItem) (kb_slice : Engine.KBSlice)
    (incident : Engine.IncidentInput) (h : Engine.Hypothesis) :
    ∀ (idx : Nat) (cs : List Engine.HypothesisCandidate),
      h ∈ Engine.scoreValidatedAux svc evidence_set kb_slice incident idx cs →
      ∃ c, c ∈ cs ∧ h.supporting_evidence_ids = c.supporting_evidence_ids
  | idx, [], hm => by simp [Engine.scoreValidatedAux] at hm
  | idx, c :: cs, hm => by
      unfold Engine.scoreValidatedAux at hm
      rcases List.mem_cons.mp hm with h1 | h2
      · exact ⟨c, List.mem_cons_self c cs, by rw [h1]; rfl⟩
      · obtain ⟨c2, hc2, he2⟩ :=
          mem_scoreValidatedAux svc evidence_set kb_slice incident h (idx + 1) cs h2
        exact ⟨c2, List.mem_cons_of_mem c hc2, he2⟩

/-- Claim C1: for every produced RCA report and every hypothesis contained in
it — the top hypothesis, each of the other hypotheses and each of the
fallback hypotheses — every id among its supporting evidence ids is the id of
some evidence item of the evidence list of the report. -/
theorem report_citation_integrity (svc : Engine.ReasoningService)
    (incident : Engine.IncidentInput) (kb_slice : Engine.KBSlice)
    (evidence : List Engine.EvidenceItem) (report : Engine.RCAReport)
    (hrep : Engine.produceReport svc incident kb_slice evidence = some report)
    (h : Engine.Hypothesis)
    (hmem : h = report.top_hypothesis ∨ h ∈ report.other_hypotheses ∨
      h ∈ report.fallback_hypotheses)
    (cid : String) (hcid : cid ∈ h.supporting_evidence_ids) :
    cid ∈ report.evidence.map (fun e => e.id) := by
  unfold Engine.produceReport Engine.assembleReport at hrep
  rcases hq : Engine.rankHypotheses (Engine.generateAndScore svc evidence kb_slice incident)
    with _ | ⟨top, rest⟩
  · rw [hq] at hrep
    exact absurd hrep (by simp)
  · rw [hq] at hrep
    obtain rfl := (Option.some.inj hrep).symm
    have hmemTR : h ∈ top :: rest := by
      rcases hmem with h1 | h2 | h3
      · rw [h1]; exact List.mem_cons_self top rest
      · exact List.mem_cons_of_mem top (List.mem_of_mem_filter h2)
      · exact List.mem_cons_of_mem top
          (List.mem_of_mem_filter (List.mem_of_mem_take h3))
    rw [← hq, mem_rankHypotheses] at hmemTR
    obtain ⟨c, hc, hids⟩ :=
      mem_scoreValidatedAux svc evidence kb_slice incident h 0 _ hmemTR
    have hvalid : Engine.validCandidate evidence c = true := (List.mem_filter.mp hc).2
    have hall := (List.all_eq_true.mp hvalid) cid (by rw [← hids]; exact hcid)
    obtain ⟨e, he, heq⟩ := List.any_eq_true.mp hall
    exact List.mem_map.mpr ⟨e, he, (beq_iff_eq.mp heq)⟩

/-- Witness for C1 at the concrete witness inputs: the top hypothesis of the
produced report cites the evidence id e1 and that id is indeed carried by the
evidence list of the report. -/
theorem report_citation_integrity_witness :
    "e1" ∈ wReport.evidence.map (fun e => e.id) :=
  report_citation_integrity wService wIncident wKBSlice wEvidenceSet wReport rfl
    wReport.top_hypothesis (Or.inl rfl) "e1" (by decide)

/-- Membership in a confidence-ordered insertion is membership in the
inserted element or the list. -/
theorem mem_insertByConfidenceDesc (x h : Frontend.Hypothesis) :
    ∀ l : List Frontend.Hypothesis,
      x ∈ Frontend.insertByConfidenceDesc h l ↔ x = h ∨ x ∈ l
  | [] => by simp [Frontend.insertByConfidenceDesc]
  | y :: ys => by
      unfold Frontend.insertByConfidenceDesc
      by_cases hb : h.confidence < y.confidence
      · rw [if_pos hb, List.mem_cons, mem_insertByConfidenceDesc x h ys, List.mem_cons]
        tauto
      · rw [if_neg hb]
        simp [List.mem_cons]

/-- Confidence-ordered insertion preserves the descending-confidence pairwise
order. -/
theorem pairwise_insertByConfidenceDesc (h : Frontend.Hypothesis) :
    ∀ l : List Frontend.Hypothesis,
      l.Pairwise (fun a b => b.confidence ≤ a.confidence) →
      (Frontend.insertByConfidenceDesc h l).Pairwise
        (fun a b => b.confidence ≤ a.confidence)
  | [], _ => by simp [Frontend.insertByConfidenceDesc]
  | y :: ys, hp => by
      unfold Frontend.insertByConfidenceDesc
      rcases List.pairwise_cons.mp hp with ⟨hy, hys⟩
      by_cases hb : h.confidence < y.confidence
      · rw [if_pos hb]
        refine List.pairwise_cons.mpr ⟨?_, pairwise_insertByConfidenceDesc h ys hys⟩
        intro z hz
        rcases (mem_insertByConfidenceDesc z h ys).mp hz with rfl | hz2
        · exact le_of_lt hb
        · exact hy z hz2
      · rw [if_neg hb]
        refine List.pairwise_cons.mpr ⟨?_, hp⟩
        intro z hz
        rcases List.mem_cons.mp hz with rfl | hz2
        · exact le_of_not_lt hb
        · exact le_trans (hy z hz2) (le_of_not_lt hb)

/-- The sorted hypothesis list is in descending confidence order. -/
theorem pairwise_hypothesesListSorted (l : List Frontend.Hypothesis) :
    (Frontend.hypothesesListSorted l).Pairwise
      (fun a b => b.confidence ≤ a.confidence) := by
  induction l with
  | nil => simp [Frontend.hypothesesListSorted]
  | cons y ys ih => exact pairwise_insertByConfidenceDesc y (Frontend.hypothesesListSorted ys) ih

/-- Sorting the hypothesis list preserves its members. -/
theorem mem_hypothesesListSorted (x : Frontend.Hypothesis) :
    ∀ l : List Frontend.Hypothesis,
      x ∈ Frontend.hypothesesListSorted l ↔ x ∈ l
  | [] => by simp [Frontend.hypothesesListSorted]
  | y :: ys => by
      show x ∈ Frontend.insertByConfidenceDesc y (Frontend.hypothesesListSorted ys) ↔ _
      rw [mem_insertByConfidenceDesc, mem_hypothesesListSorted x ys, List.mem_cons]

/-- Claim C3 counterexample: on two scored hypotheses of equal confidence the
list component selects the first as the top hypothesis and renders the second
among the other hypotheses with the very same confidence, so the confidence
of the selected top hypothesis is not strictly greater than the confidence of
every hypothesis placed among the others. -/
theorem hypotheses_list_strictness_counterexample :
    Frontend.hypothesesListTop [tieFirst, tieSecond] = some tieFirst ∧
    tieSecond ∈ Frontend.hypothesesListOthers [tieFirst, tieSecond] ∧
    ¬ (tieSecond.confidence < tieFirst.confidence) := by decide

/-- Claim C3, amended: for every non-empty list of scored hypotheses, the
hypothesis selected as the top hypothesis has confidence greater than or
equal to the confidence of every other hypothesis in the list, and greater
than or equal to (not strictly greater than: ties are possible) the
confidence of every hypothesis placed among the other hypotheses. -/
theorem hypotheses_list_top_maximal (hs : List Frontend.Hypothesis)
    (top h2 : Frontend.Hypothesis)
    (htop : Frontend.hypothesesListTop hs = some top)
    (hmem : h2 ∈ hs ∨ h2 ∈ Frontend.hypothesesListOthers hs) :
    h2.confidence ≤ top.confidence := by
  unfold Frontend.hypothesesListTop at htop
  rcases hq : Frontend.hypothesesListSorted hs with _ | ⟨y, ys⟩
  · rw [hq] at htop
    exact absurd htop (by simp)
  · rw [hq] at htop
    simp only [List.head?] at htop
    obtain rfl := Option.some.inj htop
    have hp := pairwise_hypothesesListSorted hs
    rw [hq] at hp
    have hy := (List.pairwise_cons.mp hp).1
    have hmem2 : h2 ∈ y :: ys := by
      rcases hmem with hA | hB
      · rw [← mem_hypothesesListSorted h2 hs, hq] at hA
        exact hA
      · unfold Frontend.hypothesesListOthers at hB
        rw [hq] at hB
        exact List.mem_cons_of_mem y hB
    rcases List.mem_cons.mp hmem2 with rfl | hz
    · exact le_refl _
    · exact hy h2 hz

/-- Witness for the amended C3 at the tied pair: the second tied hypothesis,
placed among the others, has confidence at most that of the selected top. -/
theorem hypotheses_list_top_maximal_witness :
    tieSecond.confidence ≤ tieFirst.confidence :=
  hypotheses_list_top_maximal [tieFirst, tieSecond] tieFirst tieSecond (by decide)
    (Or.inl (by decide))

/-- Claim C4: a subject-binding resolution result is classified Unresolved
Provider exactly when no provider instance is resolved, Category Mismatch
exactly when a provider is resolved but its catalog category does not equal
the requested capability, and OK in all remaining cases, that is exactly when
a provider is resolved with category equal to the capability. -/
theorem binding_status_classification (item : UI.BindingResolution) :
    (UI.bindingStatus item = "Unresolved Provider" ↔ item.resolved = false) ∧
    (UI.bindingStatus item = "Category Mismatch" ↔
      item.resolved = true ∧ item.provider_category ≠ some item.capability) ∧
    (UI.bindingStatus item = "OK" ↔
      item.resolved = true ∧ item.provider_category = some item.capability) := by
  obtain ⟨cap, pid, res, pcat, ptype⟩ := item
  cases res with
  | false =>
      have hbs : UI.bindingStatus ⟨cap, pid, false, pcat, ptype⟩ = "Unresolved Provider" := rfl
      rw [hbs]
      dsimp only
      refine ⟨by simp, ?_, ?_⟩
      · constructor
        · intro hcontra
          exact absurd hcontra (by decide)
        · rintro ⟨h1, _⟩
          exact absurd h1 (by decide)
      · constructor
        · intro hcontra
          exact absurd hcontra (by decide)
        · rintro ⟨h1, _⟩
          exact absurd h1 (by decide)
  | true =>
      by_cases hc : pcat = some cap
      · subst hc
        have hbs : UI.bindingStatus ⟨cap, pid, true, some cap, ptype⟩ = "OK" := by
          unfold UI.bindingStatus
          rw [if_neg (by simp), if_neg (by simp)]
        rw [hbs]
        dsimp only
        refine ⟨by decide, ?_, by simp⟩
        constructor
        · intro hcontra
          exact absurd hcontra (by decide)
        · rintro ⟨_, hne⟩
          exact absurd rfl hne
      · have hbs : UI.bindingStatus ⟨cap, pid, true, pcat, ptype⟩ = "Category Mismatch" := by
          unfold UI.bindingStatus
          rw [if_neg (by simp), if_pos hc]
        rw [hbs]
        dsimp only
        refine ⟨by decide, by simp [hc], ?_⟩
        constructor
        · intro hcontra
          exact absurd hcontra (by decide)
        · rintro ⟨_, heq⟩
          exact absurd heq hc

/-- Claim C9: for every onboarding model and valid provider index,
removeProvider removes exactly that provider from the provider list and maps
every subject to a copy whose bindings keep exactly the entries bound to a
different provider id, with every other subject field unchanged — stated by
the explicit structure literal below, whose every other field is the original
one of the subject. -/
theorem remove_provider_frame (model : UI.OnboardingModel) (index : Nat)
    (p : UI.OnboardingProviderModel) (hp : model.providers[index]? = some p)
    (j : Nat) (s : UI.OnboardingSubjectModel) (hs : model.subjects[j]? = some s) :
    (UI.removeProvider model index).providers =
      model.providers.take index ++ model.providers.drop (index + 1) ∧
    (UI.removeProvider model index).subjects.length = model.subjects.length ∧
    (UI.removeProvider model index).subjects[j]? = some
      { name := s.name
        environment := s.environment
        aliases := s.aliases
        bindings := s.bindings.filter (fun b => decide (some b.2 ≠ some p.id))
        dependencies := s.dependencies
        runbooks := s.runbooks
        known_failure_modes := s.known_failure_modes
        deploy_context := s.deploy_context
        vcs_context := s.vcs_context
        log_evidence := s.log_evidence } := by
  have hprov : (UI.removeProvider model index).providers = model.providers.eraseIdx index := rfl
  have hsubj : (UI.removeProvider model index).subjects =
      model.subjects.map
        (UI.removeProviderBindings ((model.providers[index]?).map (fun q => q.id))) := rfl
  refine ⟨?_, ?_, ?_⟩
  · rw [hprov, List.eraseIdx_eq_take_drop_succ]
  · rw [hsubj, List.length_map]
  · rw [hsubj, List.getElem?_map, hs, hp]
    rfl

/-- Witness for C9: removing the first provider of the concrete model deletes
its binding from the subject and leaves the rest intact. -/
theorem remove_provider_frame_witness :
    (UI.removeProvider wOnboardingModel 0).providers =
      wOnboardingModel.providers.take 0 ++ wOnboardingModel.providers.drop (0 + 1) ∧
    (UI.removeProvider wOnboardingModel 0).subjects.length =
      wOnboardingModel.subjects.length ∧
    (UI.removeProvider wOnboardingModel 0).subjects[0]? = some
      { name := wSubject.name
        environment := wSubject.environment
        aliases := wSubject.aliases
        bindings := wSubject.bindings.filter (fun b => decide (some b.2 ≠ some wProvider.id))
        dependencies := wSubject.dependencies
        runbooks := wSubject.runbooks
        known_failure_modes := wSubject.known_failure_modes
        deploy_context := wSubject.deploy_context
        vcs_context := wSubject.vcs_context
        log_evidence := wSubject.log_evidence } :=
  remove_provider_frame wOnboardingModel 0 wProvider (by decide) 0 wSubject (by decide)

/-- Claim C10: the workflow-progress step index is 0 exactly without a
report, 3 (Recommendation Ready) exactly when the report has a top
hypothesis, 2 when there is no top hypothesis but the evidence list is
non-empty, 1 otherwise; the Recommendation Ready step is never reached
without a top hypothesis. -/
theorem current_step_index_classification :
    UI.currentStepIndex none = 0 ∧
    (∀ r : UI.ReportBody, UI.currentStepIndex (some r) ≠ 0) ∧
    (∀ r : UI.ReportBody,
      UI.currentStepIndex (some r) = 3 ↔ r.top_hypothesis.isSome = true) ∧
    (∀ r : UI.ReportBody,
      UI.currentStepIndex (some r) = 2 ↔
        r.top_hypothesis = none ∧ 0 < (r.evidence.getD []).length) ∧
    (∀ r : UI.ReportBody,
      UI.currentStepIndex (some r) = 1 ↔
        r.top_hypothesis = none ∧ (r.evidence.getD []).length = 0) ∧
    (∀ report : Option UI.ReportBody,
      UI.steps[UI.currentStepIndex report]? = some "Recommendation Ready" →
        ∃ r, report = some r ∧ r.top_hypothesis.isSome = true) := by
  have hstep : ∀ r : UI.ReportBody,
      UI.currentStepIndex (some r) =
        if r.top_hypothesis.isSome then 3
        else if decide ((r.evidence.getD []).length > 0) then 2 else 1 := by
    intro r
    rfl
  refine ⟨rfl, ?_, ?_, ?_, ?_, ?_⟩
  · intro r
    rw [hstep r]
    cases hth : r.top_hypothesis.isSome
    · by_cases hev : (r.evidence.getD []).length > 0
      · simp [hev]
      · simp [hev]
    · simp
  · intro r
    rw [hstep r]
    cases hth : r.top_hypothesis.isSome
    · by_cases hev : (r.evidence.getD []).length > 0
      · simp [hev]
      · simp [hev]
    · simp
  · intro r
    rw [hstep r]
    cases hth : r.top_hypothesis.isSome
    · have hnone : r.top_hypothesis = none := by
        cases hq : r.top_hypothesis
        · rfl
        · rw [hq] at hth
          simp at hth
      by_cases hev : (r.evidence.getD []).length > 0
      · simp [hev, hnone]
      · simp [hev, hnone]
    · rw [Option.isSome_iff_exists] at hth
      obtain ⟨th, hth2⟩ := hth
      simp [hth2]
  · intro r
    rw [hstep r]
    cases hth : r.top_hypothesis.isSome
    · have hnone : r.top_hypothesis = none := by
        cases hq : r.top_hypothesis
        · rfl
        · rw [hq] at hth
          simp at hth
      by_cases hev : (r.evidence.getD []).length > 0
      · constructor
        · intro hcontra
          rw [if_neg (by simp), if_pos (by simpa using hev)] at hcontra
          exact absurd hcontra (by decide)
        · rintro ⟨-, hlen⟩
          omega
      · constructor
        · intro _
          refine ⟨hnone, by omega⟩
        · intro _
          rw [if_neg (by simp), if_neg (by simpa using hev)]
    · rw [Option.isSome_iff_exists] at hth
      obtain ⟨th, hth2⟩ := hth
      simp [hth2]
  · intro report
    cases report with
    | none =>
        intro hcontra
        exact absurd hcontra (by decide)
    | some r =>
        rw [hstep r]
        cases hth : r.top_hypothesis.isSome
        · by_cases hev : (r.evidence.getD []).length > 0
          · simp [hev]
            intro hcontra
            exact absurd hcontra (by decide)
          · simp [hev]
            intro hcontra
            exact absurd hcontra (by decide)
        · intro _
          exact ⟨r, rfl, hth⟩

/-- Filtering a tab list keeps the id list duplicate-free. -/
theorem nodup_filter_map_ids (l : List Tabs.IncidentTab)
    (hl : (l.map (fun t => t.id)).Nodup) (p : Tabs.IncidentTab → Bool) :
    ((l.filter p).map (fun t => t.id)).Nodup :=
  hl.sublist ((l.filter_sublist).map (fun t => t.id))

/-- A tab id is never among the ids of the tabs filtered to exclude it. -/
theorem tabid_not_mem_filtered (l : List Tabs.IncidentTab) (tabId : String) :
    tabId ∉ (l.filter (fun t => decide (t.id ≠ tabId))).map (fun t => t.id) := by
  intro hmem
  obtain ⟨x, hx, hxid⟩ := List.mem_map.mp hmem
  have hne := of_decide_eq_true (List.mem_filter.mp hx).2
  exact hne hxid

/-- Claim C8: loading persisted state with duplicate-free ids, openTab,
closeTab, setActive, syncFromRoute and reset all preserve the invariant that
the open-tabs list holds at most MAX_TABS tabs with pairwise-distinct ids;
openTab additionally places the opened tab first and makes it active. -/
theorem incident_tabs_invariant (persisted state : Tabs.IncidentTabsState)
    (tab : Tabs.IncidentTab) (id : String)
    (hpers : (persisted.openTabs.map (fun t => t.id)).Nodup)
    (hstate : Tabs.TabsInvariant state) :
    Tabs.TabsInvariant (Tabs.loadState none) ∧
    Tabs.TabsInvariant (Tabs.loadState (some persisted)) ∧
    Tabs.TabsInvariant (Tabs.openTab tab state) ∧
    Tabs.TabsInvariant (Tabs.closeTab id state) ∧
    Tabs.TabsInvariant (Tabs.setActive id state) ∧
    Tabs.TabsInvariant (Tabs.syncFromRoute id state) ∧
    Tabs.TabsInvariant Tabs.reset ∧
    (Tabs.openTab tab state).openTabs.head? = some tab ∧
    (Tabs.openTab tab state).activeTabId = some tab.id := by
  obtain ⟨hlenS, hnodupS⟩ := hstate
  refine ⟨⟨by simp [Tabs.loadState], by simp [Tabs.loadState]⟩, ?_, ?_, ?_, ?_, ?_, ?_, ?_, ?_⟩
  · constructor
    · show (persisted.openTabs.take Tabs.MAX_TABS).length ≤ Tabs.MAX_TABS
      rw [List.length_take]
      exact min_le_left _ _
    · show ((persisted.openTabs.take Tabs.MAX_TABS).map (fun t => t.id)).Nodup
      exact hpers.sublist ((persisted.openTabs.take_sublist Tabs.MAX_TABS).map (fun t => t.id))
  · have hL : ((tab :: state.openTabs.filter (fun t => decide (t.id ≠ tab.id))).map
        (fun t => t.id)).Nodup := by
      rw [List.map_cons]
      exact List.nodup_cons.mpr
        ⟨tabid_not_mem_filtered state.openTabs tab.id,
         nodup_filter_map_ids state.openTabs hnodupS _⟩
    by_cases hlen : (tab :: state.openTabs.filter (fun t => decide (t.id ≠ tab.id))).length >
        Tabs.MAX_TABS
    · have hopen : (Tabs.openTab tab state).openTabs =
          (tab :: state.openTabs.filter (fun t => decide (t.id ≠ tab.id))).take
            Tabs.MAX_TABS := by
        show (if _ > Tabs.MAX_TABS then _ else _) = _
        rw [if_pos hlen]
      constructor
      · rw [hopen, List.length_take]
        exact min_le_left _ _
      · rw [hopen]
        exact hL.sublist
          (List.Sublist.map (fun t => t.id)
            (List.take_sublist Tabs.MAX_TABS
              (tab :: state.openTabs.filter (fun t => decide (t.id ≠ tab.id)))))
    · have hopen : (Tabs.openTab tab state).openTabs =
          tab :: state.openTabs.filter (fun t => decide (t.id ≠ tab.id)) := by
        show (if _ > Tabs.MAX_TABS then _ else _) = _
        rw [if_neg hlen]
      constructor
      · rw [hopen]
        exact le_of_not_lt hlen
      · rw [hopen]
        exact hL
  · constructor
    · show (state.openTabs.filter (fun t => decide (t.id ≠ id))).length ≤ Tabs.MAX_TABS
      exact le_trans (List.length_filter_le _ _) hlenS
    · exact nodup_filter_map_ids state.openTabs hnodupS _
  · exact ⟨hlenS, hnodupS⟩
  · unfold Tabs.syncFromRoute
    by_cases hid : id = ""
    · rw [if_pos hid]
      exact ⟨hlenS, hnodupS⟩
    · rw [if_neg hid]
      by_cases hex : state.openTabs.any (fun t => decide (t.id = id)) = true
      · rw [if_pos hex]
        exact ⟨hlenS, hnodupS⟩
      · rw [if_neg hex]
        exact ⟨hlenS, hnodupS⟩
  · exact ⟨by simp [Tabs.reset], by simp [Tabs.reset]⟩
  · by_cases hlen : (tab :: state.openTabs.filter (fun t => decide (t.id ≠ tab.id))).length >
        Tabs.MAX_TABS
    · show (if _ > Tabs.MAX_TABS then _ else _ : List Tabs.IncidentTab).head? = some tab
      rw [if_pos hlen]
      rw [show Tabs.MAX_TABS = 4 + 1 from rfl, List.take_succ_cons]
      rfl
    · show (if _ > Tabs.MAX_TABS then _ else _ : List Tabs.IncidentTab).head? = some tab
      rw [if_neg hlen]
      rfl
  · rfl

/-- Witness for C8 at a concrete persisted state, store state, tab and id. -/
theorem incident_tabs_invariant_witness :
    Tabs.TabsInvariant (Tabs.loadState none) ∧
    Tabs.TabsInvariant (Tabs.loadState (some wTabsState)) ∧
    Tabs.TabsInvariant (Tabs.openTab wTab wTabsState) ∧
    Tabs.TabsInvariant (Tabs.closeTab "inc-2" wTabsState) ∧
    Tabs.TabsInvariant (Tabs.setActive "inc-2" wTabsState) ∧
    Tabs.TabsInvariant (Tabs.syncFromRoute "inc-2" wTabsState) ∧
    Tabs.TabsInvariant Tabs.reset ∧
    (Tabs.openTab wTab wTabsState).openTabs.head? = some wTab ∧
    (Tabs.openTab wTab wTabsState).activeTabId = some wTab.id :=
  incident_tabs_invariant wTabsState wTabsState wTab "inc-2" (by decide)
    (by exact ⟨by decide, by decide⟩)

end SreRca
